import Mathlib

/-!
Verification development for the `pyImageStack` repository
(`src/pyImageStack/pyImageStack.py`).

The file shallowly embeds the `ImageStack` class and the slice of its
external storage engine (PyTables/HDF5) that the class exercises:

* an HDF5 file is a `Container` holding an optional growable image array
  (`img_stack`, a PyTables `EArray`) and an optional metadata `Table`;
* a numpy image is an `Img`: a shape, a dtype tag and flattened pixel data;
* `tables.open_file` is `openFile`, keyed on the mode string exactly as the
  Python code passes it ("w" truncates, "r" requires the file, "a" opens
  or creates);
* `ImageStack.__init__` is `ImageStack.init`, `ImageStack.add_image` is
  `ImageStack.add_image` (returning the post-state together with an
  optional raised exception, because Python mutations made before an
  exception persist), `shape`, `has_metadata`, `__getitem__` and `__del__`
  (`closeStack`) follow the source line by line.

The storage engine itself is an external collaborator; its contract
(append checks the element shape/dtype and appends atomically, a table row
is default-initialised, assigned field by field and appended on
`row.append()`, a missing node raises `NoSuchNodeError`) is modelled from
the engine's documented behaviour referenced by the code.
-/

/-- Dtype tags for numpy arrays / PyTables atoms (`tables.Atom.from_dtype`). -/
inductive Dtype
  | float64
  | int32
  | uint8
deriving DecidableEq

/-- A numpy `ndarray` image: its shape, dtype and flattened pixel data. -/
structure Img where
  shape : List Nat
  dtype : Dtype
  data : List Int
deriving DecidableEq

/-- A PyTables `EArray`: element shape and dtype fixed at creation
(`create_earray(..., atom, (0,) + dummy_img.shape)`), plus the images
appended so far along the leading axis. -/
structure EArray where
  itemShape : List Nat
  dtype : Dtype
  items : List Img
deriving DecidableEq

/-- Shape of an `EArray`, `(N, *item_shape)` as in PyTables. -/
def EArray.shape (a : EArray) : List Nat :=
  a.items.length :: a.itemShape

/-- A metadata dict as passed to `add_image`: field name to scalar value. -/
abbrev Metadata := List (String × Int)

/-- A PyTables `Table`: the column names fixed by `metadata_cls` at
`create_table` time, and the appended rows. -/
structure MTable where
  colnames : List String
  rows : List Metadata
deriving DecidableEq

/-- An HDF5 file's content: the two named top-level objects the code uses,
either of which may be absent. -/
structure Container where
  img_stack : Option EArray
  metadata : Option MTable
deriving DecidableEq

/-- Python/PyTables exceptions raised on the code paths under study. -/
inductive PyErr
  | valueError
  | typeError
  | keyError
  | attributeError
  | noSuchNode
  | fileNotFound
deriving DecidableEq

/-- The `ImageStack` instance: `self.filename`, `self.mode` (after the
forced switch to "w"), `self.data` and `self.metadata`. -/
structure ImageStack where
  filename : String
  mode : String
  data : EArray
  metadata : Option MTable
deriving DecidableEq

/-- Model of `tables.open_file(filename, mode)`: `fs` is the current
content of the file at `filename` (`none` when no such file exists).
Mode "w" truncates to a fresh empty container, "r" fails on a missing
file, "a" opens or creates. -/
def openFile (fs : Option Container) (mode : String) : Except PyErr Container :=
  match mode with
  | "w" => .ok { img_stack := none, metadata := none }
  | "r" =>
    match fs with
    | none => .error PyErr.fileNotFound
    | some c => .ok c
  | "a" =>
    match fs with
    | none => .ok { img_stack := none, metadata := none }
    | some c => .ok c
  | _ => .error PyErr.valueError

/-- Model of `ImageStack.__init__`.  Mirrors the source order: the mode is
forced to "w" when `dummy_img` is given; the file is opened; on the create
path an empty `EArray` with element shape `(0,) + dummy_img.shape` is
created and, when `metadata_cls` is given, an empty metadata table; on the
load path `self._h5file.root.img_stack` is attached (raising
`NoSuchNodeError` when absent — this access is not inside the try block),
while the metadata attach is wrapped in try/except and a missing table
becomes `None`. -/
def ImageStack.init (fs : Option Container) (filename : String)
    (dummy_img : Option Img) (metadata_cls : Option (List String))
    (mode : String) : Except PyErr ImageStack :=
  let mode1 := if dummy_img.isSome then "w" else mode
  match openFile fs mode1 with
  | .error e => .error e
  | .ok c =>
    match dummy_img with
    | some d =>
      let data : EArray := { itemShape := d.shape, dtype := d.dtype, items := [] }
      let md : Option MTable := metadata_cls.map (fun cls => { colnames := cls, rows := [] })
      .ok { filename := filename, mode := mode1, data := data, metadata := md }
    | none =>
      match c.img_stack with
      | none => .error PyErr.noSuchNode
      | some arr =>
        .ok { filename := filename, mode := mode1, data := arr, metadata := c.metadata }

/-- Model of the `shape` property: `self.data.shape`. -/
def ImageStack.shape (s : ImageStack) : List Nat :=
  s.data.shape

/-- Model of `self.metadata.row` default initialisation: a fresh row holds
every column of the table at its default value (0 for scalar columns). -/
def defaultRow (cols : List String) : Metadata :=
  cols.map (fun k => (k, 0))

/-- Field lookup in a row or dict (first occurrence wins, as for the
unique keys of a Python dict / table row). -/
def lookupRow (row : Metadata) (k : String) : Option Int :=
  match row with
  | [] => none
  | (k', v) :: rest => if k' = k then some v else lookupRow rest k

/-- Model of `row[key] = value`: overwrite the field named `k`; a name
outside the table's columns raises `KeyError` (modelled as `none`). -/
def rowSet (row : Metadata) (k : String) (v : Int) : Option Metadata :=
  match row with
  | [] => none
  | (k', v') :: rest =>
    if k' = k then some ((k', v) :: rest)
    else (rowSet rest k v).map (fun r => (k', v') :: r)

/-- Model of the loop `for (key, value) in metadata.items(): row[key] = value`
over a fresh table row: each assignment either updates the field or raises
`KeyError`. -/
def fillRow (row : Metadata) (md : Metadata) : Except PyErr Metadata :=
  match md with
  | [] => .ok row
  | (k, v) :: rest =>
    match rowSet row k v with
    | none => .error PyErr.keyError
    | some row' => fillRow row' rest

/-- Model of `ImageStack.add_image(img, metadata)`.  Returns the
post-state of the instance together with the exception raised, if any;
mutations performed before the exception persist, as in Python.
`self.data.append(np.expand_dims(img, 0))` checks the element shape and
dtype against the `EArray` and appends atomically (shape/dtype mismatch
condition, `ValueError`).  When `metadata` is not `None`,
`_get_metadata_row` returns the table's fresh row, or `None` when the
stack has no metadata table — in which case `row[key] = value` raises
`TypeError` (or `row.append()` raises `AttributeError` when the dict is
empty).  With a table, the filled row is appended by `row.append()`. -/
def ImageStack.add_image (s : ImageStack) (img : Img) (metadata : Option Metadata) :
    ImageStack × Option PyErr :=
  if img.shape = s.data.itemShape ∧ img.dtype = s.data.dtype then
    let s1 : ImageStack := { s with data := { s.data with items := s.data.items ++ [img] } }
    match metadata with
    | none => (s1, none)
    | some md =>
      match s1.metadata with
      | none => (s1, some (if md.isEmpty then PyErr.attributeError else PyErr.typeError))
      | some t =>
        match fillRow (defaultRow t.colnames) md with
        | .error e => (s1, some e)
        | .ok row => ({ s1 with metadata := some { t with rows := t.rows ++ [row] } }, none)
  else (s, some PyErr.valueError)

/-- Model of `has_metadata`: `isinstance(self.metadata, tables.table.Table)`,
i.e. whether the optional table is present. -/
def ImageStack.has_metadata (s : ImageStack) : Bool :=
  s.metadata.isSome

/-- Model of `__getitem__`: delegate to the `EArray`'s indexing; an
out-of-range index raises (modelled as `none`). -/
def ImageStack.getitem (s : ImageStack) (i : Nat) : Option Img :=
  s.data.items[i]?

/-- Model of `__del__` on a fully constructed instance as it affects the
file: the metadata table (when present) is flushed and the file closed,
so the file afterwards holds exactly the instance's array and table. -/
def closeStack (s : ImageStack) : Container :=
  { img_stack := some s.data, metadata := s.metadata }

/-- A sequence of `add_image` calls, as a Python caller would issue them:
the loop stops at the first raised exception. -/
def addImages (s : ImageStack) (l : List (Img × Option Metadata)) :
    Except PyErr ImageStack :=
  match l with
  | [] => .ok s
  | (img, md) :: rest =>
    match s.add_image img md with
    | (s1, none) => addImages s1 rest
    | (_, some e) => .error e

/-- A sequence of `add_image` calls each of which supplies a metadata dict. -/
def addImagesM (s : ImageStack) (l : List (Img × Metadata)) :
    Except PyErr ImageStack :=
  addImages s (l.map (fun p => (p.1, some p.2)))

/-- A metadata dict matches the table schema when its keys are exactly the
column names (and, being a Python dict, has no duplicate keys). -/
def matchesSchema (cols : List String) (md : Metadata) : Prop :=
  (md.map Prod.fst).Nodup ∧
  (∀ k ∈ cols, k ∈ md.map Prod.fst) ∧
  (∀ k ∈ md.map Prod.fst, k ∈ cols)

/-- Handle accounting for one construction attempt followed by the
destructor: how many times the HDF5 handle was acquired (`open_file`
succeeded) and released (`close()` actually executed), and whether
`__init__` completed. -/
structure LifeTrace where
  acquired : Nat
  released : Nat
  ok : Bool
deriving DecidableEq

/-- Model of the handle lifecycle of `__init__` + `__del__`.  On the
create path construction completes and the later `__del__` reaches
`self._h5file.close()` (after the metadata flush), releasing the handle.
On the load path with `img_stack` absent, `__init__` raises
`NoSuchNodeError` after `open_file`; Python then invokes `__del__` on the
partially constructed object, whose first statement calls
`has_metadata()`, which reads `self.metadata` — an attribute never
assigned on this path — so `__del__` dies with `AttributeError` before
reaching `close()` and the handle is never released. -/
def initLifecycle (fs : Option Container) (dummy_img : Option Img)
    (metadata_cls : Option (List String)) (mode : String) : LifeTrace :=
  let mode1 := if dummy_img.isSome then "w" else mode
  match openFile fs mode1 with
  | .error _ => { acquired := 0, released := 0, ok := false }
  | .ok c =>
    match dummy_img with
    | some _ => { acquired := 1, released := 1, ok := true }
    | none =>
      match c.img_stack with
      | none => { acquired := 1, released := 0, ok := false }
      | some _ => { acquired := 1, released := 1, ok := true }

deriving instance DecidableEq for Except

/-! ### Concrete sample data, used by the closed witness theorems -/

/-- A 2x2 uint8 template image (its pixel data is irrelevant, only shape
and dtype matter). -/
def dummyT : Img :=
  { shape := [2, 2], dtype := Dtype.uint8, data := [0, 0, 0, 0] }

/-- A first concrete 2x2 uint8 image. -/
def imgA : Img :=
  { shape := [2, 2], dtype := Dtype.uint8, data := [1, 2, 3, 4] }

/-- A second concrete 2x2 uint8 image. -/
def imgB : Img :=
  { shape := [2, 2], dtype := Dtype.uint8, data := [5, 6, 7, 8] }

/-- A 10x10 float64 template image. -/
def img10x10 : Img :=
  { shape := [10, 10], dtype := Dtype.float64, data := [] }

/-- A 5x5 float64 image, whose shape disagrees with `img10x10`. -/
def img5x5 : Img :=
  { shape := [5, 5], dtype := Dtype.float64, data := [] }

/-- The stack produced by creating over `dummyT` with no metadata schema. -/
def stackNoMeta : ImageStack :=
  { filename := "t.h5", mode := "w",
    data := { itemShape := [2, 2], dtype := Dtype.uint8, items := [] },
    metadata := none }

/-- `stackNoMeta` after appending `imgA` and `imgB`. -/
def stackWN : ImageStack :=
  { filename := "t.h5", mode := "w",
    data := { itemShape := [2, 2], dtype := Dtype.uint8, items := [imgA, imgB] },
    metadata := none }

/-- The stack obtained by reopening the closed `stackWN` read-only. -/
def stackR : ImageStack :=
  { filename := "t.h5", mode := "r",
    data := { itemShape := [2, 2], dtype := Dtype.uint8, items := [imgA, imgB] },
    metadata := none }

/-- A fresh stack created over the 10x10 template. -/
def stack10 : ImageStack :=
  { filename := "t.h5", mode := "w",
    data := { itemShape := [10, 10], dtype := Dtype.float64, items := [] },
    metadata := none }

/-- A fresh stack created over `dummyT` with metadata schema `{exp_time}`. -/
def stackMeta0 : ImageStack :=
  { filename := "t.h5", mode := "w",
    data := { itemShape := [2, 2], dtype := Dtype.uint8, items := [] },
    metadata := some { colnames := ["exp_time"], rows := [] } }

/-- `stackMeta0` after one append with metadata `{exp_time: 7}`. -/
def stackMeta1 : ImageStack :=
  { filename := "t.h5", mode := "w",
    data := { itemShape := [2, 2], dtype := Dtype.uint8, items := [imgA] },
    metadata := some { colnames := ["exp_time"], rows := [[("exp_time", 7)]] } }

/-! ### Lemmas about table rows -/

lemma lookupRow_eq_none_of_not_mem (row : Metadata) (k : String)
    (h : k ∉ row.map Prod.fst) : lookupRow row k = none := by
  induction row with
  | nil => rfl
  | cons p rest ih =>
    obtain ⟨k', v⟩ := p
    simp only [List.map_cons, List.mem_cons, not_or] at h
    simp only [lookupRow]
    rw [if_neg (fun hkk => h.1 hkk.symm)]
    exact ih h.2

lemma lookupRow_isSome_of_mem (row : Metadata) (k : String)
    (h : k ∈ row.map Prod.fst) : ∃ v, lookupRow row k = some v := by
  induction row with
  | nil => simp at h
  | cons p rest ih =>
    obtain ⟨k', v⟩ := p
    simp only [lookupRow]
    by_cases hk : k' = k
    · exact ⟨v, if_pos hk⟩
    · rw [if_neg hk]
      apply ih
      simp only [List.map_cons, List.mem_cons] at h
      rcases h with h | h
      · exact absurd h.symm hk
      · exact h

lemma rowSet_lookup_self (row : Metadata) (k : String) (v : Int) :
    ∀ row', rowSet row k v = some row' → lookupRow row' k = some v := by
  induction row with
  | nil => intro row' h; simp [rowSet] at h
  | cons p rest ih =>
    intro row' h
    obtain ⟨k', v'⟩ := p
    simp only [rowSet] at h
    by_cases hk : k' = k
    · rw [if_pos hk] at h
      cases h
      simp [lookupRow, if_pos hk]
    · rw [if_neg hk] at h
      cases hr : rowSet rest k v with
      | none => rw [hr] at h; simp at h
      | some r =>
        rw [hr] at h
        simp only [Option.map_some'] at h
        cases h
        simp only [lookupRow, if_neg hk]
        exact ih r hr

lemma rowSet_lookup_other (row : Metadata) (k : String) (v : Int) :
    ∀ row' k', rowSet row k v = some row' → k' ≠ k →
      lookupRow row' k' = lookupRow row k' := by
  induction row with
  | nil => intro row' k' h; simp [rowSet] at h
  | cons p rest ih =>
    intro row' k' h hne
    obtain ⟨k0, v0⟩ := p
    simp only [rowSet] at h
    by_cases hk : k0 = k
    · rw [if_pos hk] at h
      cases h
      simp only [lookupRow]
      rw [if_neg (by rw [hk]; exact fun hkk => hne hkk.symm),
        if_neg (by rw [hk]; exact fun hkk => hne hkk.symm)]
    · rw [if_neg hk] at h
      cases hr : rowSet rest k v with
      | none => rw [hr] at h; simp at h
      | some r =>
        rw [hr] at h
        simp only [Option.map_some'] at h
        cases h
        simp only [lookupRow]
        by_cases hk0 : k0 = k'
        · rw [if_pos hk0, if_pos hk0]
        · rw [if_neg hk0, if_neg hk0]
          exact ih r k' hr hne

lemma fillRow_lookup (md : Metadata) : ∀ (row row' : Metadata),
    fillRow row md = .ok row' → (md.map Prod.fst).Nodup →
    ∀ k, lookupRow row' k =
      match lookupRow md k with
      | some v => some v
      | none => lookupRow row k := by
  induction md with
  | nil =>
    intro row row' h _ k
    simp only [fillRow] at h
    cases h
    simp [lookupRow]
  | cons p rest ih =>
    intro row row' h hnd k
    obtain ⟨k0, v0⟩ := p
    simp only [fillRow] at h
    cases hs : rowSet row k0 v0 with
    | none => rw [hs] at h; simp at h
    | some row1 =>
      rw [hs] at h
      simp only [List.map_cons, List.nodup_cons] at hnd
      have hrec := ih row1 row' h hnd.2
      by_cases hk : k0 = k
      · subst hk
        have hnone : lookupRow rest k0 = none :=
          lookupRow_eq_none_of_not_mem rest k0 hnd.1
        rw [hrec k0, hnone]
        simp only [lookupRow, if_pos rfl]
        exact rowSet_lookup_self row k0 v0 row1 hs
      · rw [hrec k]
        simp only [lookupRow, if_neg hk]
        cases hlr : lookupRow rest k with
        | some v => rfl
        | none =>
          simp only []
          exact rowSet_lookup_other row k0 v0 row1 k hs (fun hkk => hk hkk.symm)

/-! ### Inversion lemmas for `add_image` and `addImages` -/

lemma add_image_ok_inv (s s' : ImageStack) (img : Img) (md : Option Metadata)
    (h : s.add_image img md = (s', none)) :
    img.shape = s.data.itemShape ∧ img.dtype = s.data.dtype ∧
    s'.data.items = s.data.items ++ [img] ∧
    s'.data.itemShape = s.data.itemShape ∧
    s'.data.dtype = s.data.dtype ∧
    s'.metadata.isSome = s.metadata.isSome ∧
    s'.filename = s.filename ∧ s'.mode = s.mode := by
  unfold ImageStack.add_image at h
  split at h
  case isFalse hc => simp at h
  case isTrue hc =>
    refine ⟨hc.1, hc.2, ?_⟩
    cases md with
    | none =>
      simp only [Prod.mk.injEq] at h
      rw [← h.1]
      simp
    | some m =>
      simp only [] at h
      cases hm : s.metadata with
      | none =>
        simp only [hm] at h
        simp at h
      | some t =>
        simp only [hm] at h
        cases hf : fillRow (defaultRow t.colnames) m with
        | error e => simp only [hf] at h; simp at h
        | ok row =>
          simp only [hf, Prod.mk.injEq] at h
          rw [← h.1]
          simp [hm]

lemma add_image_table_inv (s s' : ImageStack) (img : Img) (md : Metadata) (t : MTable)
    (hm : s.metadata = some t) (h : s.add_image img (some md) = (s', none)) :
    ∃ row, fillRow (defaultRow t.colnames) md = .ok row ∧
      s' = { s with data := { s.data with items := s.data.items ++ [img] },
                    metadata := some { t with rows := t.rows ++ [row] } } := by
  unfold ImageStack.add_image at h
  split at h
  case isFalse hc => simp at h
  case isTrue hc =>
    simp only [hm] at h
    cases hf : fillRow (defaultRow t.colnames) md with
    | error e => simp only [hf] at h; simp at h
    | ok row =>
      simp only [hf, Prod.mk.injEq] at h
      exact ⟨row, rfl, h.1.symm⟩

lemma addImages_ok_inv : ∀ (l : List (Img × Option Metadata)) (s sN : ImageStack),
    addImages s l = .ok sN →
    sN.data.items = s.data.items ++ l.map Prod.fst ∧
    sN.data.itemShape = s.data.itemShape ∧
    sN.data.dtype = s.data.dtype ∧
    sN.metadata.isSome = s.metadata.isSome ∧
    sN.filename = s.filename ∧ sN.mode = s.mode := by
  intro l
  induction l with
  | nil =>
    intro s sN h
    simp only [addImages] at h
    cases h
    simp
  | cons p rest ih =>
    intro s sN h
    obtain ⟨img, md⟩ := p
    simp only [addImages] at h
    cases ha : s.add_image img md with
    | mk s1 e =>
      rw [ha] at h
      cases e with
      | some err => simp at h
      | none =>
        obtain ⟨_, _, hitems, hshape, hdtype, hmeta, hfn, hmd⟩ :=
          add_image_ok_inv s s1 img md ha
        obtain ⟨ritems, rshape, rdtype, rmeta, rfn, rmd⟩ := ih s1 sN h
        refine ⟨?_, by rw [rshape, hshape], by rw [rdtype, hdtype],
          by rw [rmeta, hmeta], by rw [rfn, hfn], by rw [rmd, hmd]⟩
        rw [ritems, hitems]
        simp

lemma addImagesM_cons (s : ImageStack) (img : Img) (md : Metadata)
    (rest : List (Img × Metadata)) :
    addImagesM s ((img, md) :: rest) =
      match s.add_image img (some md) with
      | (s1, none) => addImagesM s1 rest
      | (_, some e) => .error e := rfl

lemma addImagesM_table_inv : ∀ (l : List (Img × Metadata)) (s sN : ImageStack) (t : MTable),
    s.metadata = some t →
    (∀ p ∈ l, matchesSchema t.colnames p.2) →
    addImagesM s l = .ok sN →
    ∃ rs, sN.metadata = some { colnames := t.colnames, rows := t.rows ++ rs } ∧
      rs.length = l.length ∧
      sN.data.items = s.data.items ++ l.map Prod.fst ∧
      ∀ (i : Nat) (row_i : Metadata) (img_i : Img) (md_i : Metadata),
        rs[i]? = some row_i → l[i]? = some (img_i, md_i) →
        ∀ k ∈ t.colnames, lookupRow row_i k = lookupRow md_i k := by
  intro l
  induction l with
  | nil =>
    intro s sN t hm _ h
    simp only [addImagesM, List.map_nil, addImages] at h
    cases h
    refine ⟨[], by simpa using hm, rfl, by simp, ?_⟩
    intro i row_i img_i md_i hr
    simp at hr
  | cons p rest ih =>
    intro s sN t hm hmatch h
    obtain ⟨img, md⟩ := p
    rw [addImagesM_cons] at h
    cases ha : s.add_image img (some md) with
    | mk s1 e =>
      rw [ha] at h
      cases e with
      | some err => simp at h
      | none =>
        obtain ⟨row, hfill, hs1⟩ := add_image_table_inv s s1 img md t hm ha
        have hs1meta : s1.metadata = some { colnames := t.colnames, rows := t.rows ++ [row] } := by
          rw [hs1]
        have hmatch' : ∀ p ∈ rest,
            matchesSchema ({ colnames := t.colnames, rows := t.rows ++ [row] } : MTable).colnames p.2 := by
          intro p hp
          exact hmatch p (List.mem_cons_of_mem _ hp)
        obtain ⟨rs, hsN, hlen, hitems, hcorr⟩ :=
          ih s1 sN { colnames := t.colnames, rows := t.rows ++ [row] } hs1meta hmatch' h
        refine ⟨row :: rs, ?_, by simp [hlen], ?_, ?_⟩
        · rw [hsN]
          simp
        · rw [hitems, hs1]
          simp
        · intro i row_i img_i md_i hr hl k hk
          cases i with
          | zero =>
            simp only [List.getElem?_cons_zero, Option.some.injEq] at hr hl
            cases hl
            subst hr
            obtain ⟨hnd, hcols, -⟩ := hmatch (img, md) (List.mem_cons_self _ _)
            have hin : k ∈ md.map Prod.fst := hcols k hk
            obtain ⟨v, hv⟩ := lookupRow_isSome_of_mem md k hin
            have hrowk := fillRow_lookup md (defaultRow t.colnames) row hfill hnd k
            rw [hv] at hrowk
            have hrow : lookupRow row k = some v := hrowk
            rw [hrow, hv]
          | succ j =>
            simp only [List.getElem?_cons_succ] at hr hl
            exact hcorr j row_i img_i md_i hr hl k hk

/-! ### Unfolding lemmas for `ImageStack.init` -/

lemma init_create_eq (fs : Option Container) (fn : String) (d : Img)
    (cls : Option (List String)) (mode : String) :
    ImageStack.init fs fn (some d) cls mode =
      .ok { filename := fn, mode := "w",
            data := { itemShape := d.shape, dtype := d.dtype, items := [] },
            metadata := cls.map (fun c => { colnames := c, rows := [] }) } := rfl

lemma init_open_eq (fs : Option Container) (fn : String)
    (cls : Option (List String)) (mode : String) :
    ImageStack.init fs fn none cls mode =
      match openFile fs mode with
      | .error e => .error e
      | .ok c =>
        match c.img_stack with
        | none => .error PyErr.noSuchNode
        | some arr =>
          .ok { filename := fn, mode := mode, data := arr, metadata := c.metadata } := rfl

/-- Shared helper: on a stack with no metadata table, a well-shaped append
with a metadata dict appends the image and then raises while writing the
metadata row. -/
lemma add_image_no_table (s : ImageStack) (img : Img) (md : Metadata)
    (hmeta : s.metadata = none)
    (hsh : img.shape = s.data.itemShape) (hdt : img.dtype = s.data.dtype) :
    s.add_image img (some md) =
      ({ s with data := { s.data with items := s.data.items ++ [img] } },
        some (if md.isEmpty then PyErr.attributeError else PyErr.typeError)) := by
  unfold ImageStack.add_image
  rw [if_pos ⟨hsh, hdt⟩]
  simp [hmeta]

/-! ### The claims -/

/-- C5: for every stack created from a template, `add_image` with an image
whose shape or dtype disagrees with the fixed element shape/dtype fails
with the shape-mismatch condition (`ValueError`) and performs no write:
the state is unchanged, so `shape[0]` after the failed call equals
`shape[0]` before it. -/
theorem c5_shape_mismatch (fs : Option Container) (fn : String) (d : Img)
    (cls : Option (List String)) (mode : String) (l : List (Img × Option Metadata))
    (s0 s : ImageStack) (img : Img) (md : Option Metadata)
    (h0 : ImageStack.init fs fn (some d) cls mode = .ok s0)
    (hl : addImages s0 l = .ok s)
    (hmm : ¬(img.shape = d.shape ∧ img.dtype = d.dtype)) :
    s.add_image img md = (s, some PyErr.valueError) ∧
    ImageStack.shape (s.add_image img md).1 = ImageStack.shape s := by
  rw [init_create_eq] at h0
  injection h0 with h0
  subst h0
  obtain ⟨-, hshape, hdtype, -, -, -⟩ := addImages_ok_inv l _ s hl
  have hcond : ¬(img.shape = s.data.itemShape ∧ img.dtype = s.data.dtype) := by
    rw [hshape, hdtype]
    exact hmm
  have heq : s.add_image img md = (s, some PyErr.valueError) := by
    unfold ImageStack.add_image
    rw [if_neg hcond]
  exact ⟨heq, by rw [heq]⟩

/-- C5 witness: a 5x5 append to a fresh 10x10-template stack fails with
`ValueError` and leaves the stack unchanged (`shape[0]` still 0). -/
theorem c5_shape_mismatch_witness :
    stack10.add_image img5x5 none = (stack10, some PyErr.valueError) ∧
    ImageStack.shape (stack10.add_image img5x5 none).1 = ImageStack.shape stack10 :=
  c5_shape_mismatch none "t.h5" img10x10 none "r" [] stack10 stack10 img5x5 none
    (by decide) (by decide) (by decide)

/-- C6: when a template image is supplied, the effective access mode is
"w" (write-new) regardless of the requested mode, and the construction
result does not depend on any existing file content (it is overwritten);
when no template is supplied, the requested mode (the parameter whose
Python default is "r") is used unchanged. -/
theorem c6_mode_forcing (fs fs' : Option Container) (fn : String) (d : Img)
    (cls : Option (List String)) (mode : String) (s s' : ImageStack)
    (hc : ImageStack.init fs fn (some d) cls mode = .ok s)
    (ho : ImageStack.init fs' fn none cls mode = .ok s') :
    s.mode = "w" ∧
    ImageStack.init fs fn (some d) cls mode = ImageStack.init fs' fn (some d) cls mode ∧
    s'.mode = mode := by
  refine ⟨?_, ?_, ?_⟩
  · rw [init_create_eq] at hc
    injection hc with hc
    subst hc
    rfl
  · rw [init_create_eq, init_create_eq]
  · rw [init_open_eq] at ho
    split at ho
    · simp at ho
    · split at ho
      · simp at ho
      · injection ho with ho
        subst ho
        rfl

/-- C6 witness: creating over a template in requested mode "r" still
yields mode "w"; opening without a template keeps mode "r". -/
theorem c6_mode_forcing_witness :
    stackNoMeta.mode = "w" ∧
    ImageStack.init none "t.h5" (some dummyT) none "r" =
      ImageStack.init (some (closeStack stackWN)) "t.h5" (some dummyT) none "r" ∧
    stackR.mode = "r" :=
  c6_mode_forcing none (some (closeStack stackWN)) "t.h5" dummyT none "r"
    stackNoMeta stackR (by decide) (by decide)

/-- C7: construction with a template yields an empty image array: shape
`(0, *template.shape)`, element shape and dtype fixed from the template,
and no stored images (in particular the template's pixel data is not
stored). -/
theorem c7_creation_empty (fs : Option Container) (fn : String) (d : Img)
    (cls : Option (List String)) (mode : String) (s : ImageStack)
    (h : ImageStack.init fs fn (some d) cls mode = .ok s) :
    ImageStack.shape s = 0 :: d.shape ∧ s.data.items = [] ∧
    s.data.itemShape = d.shape ∧ s.data.dtype = d.dtype := by
  rw [init_create_eq] at h
  injection h with h
  subst h
  exact ⟨rfl, rfl, rfl, rfl⟩

/-- C7 witness: creating over the 2x2 template gives shape (0, 2, 2) and
an empty item list. -/
theorem c7_creation_empty_witness :
    ImageStack.shape stackNoMeta = 0 :: dummyT.shape ∧ stackNoMeta.data.items = [] ∧
    stackNoMeta.data.itemShape = dummyT.shape ∧ stackNoMeta.data.dtype = dummyT.dtype :=
  c7_creation_empty none "t.h5" dummyT none "a" stackNoMeta (by decide)

/-- C8: opening an existing container that has an image array but no
metadata table succeeds (in read or append mode), and the resulting stack
reports `has_metadata() = false`. -/
theorem c8_missing_metadata (fn : String) (arr : EArray) (cls : Option (List String))
    (mode : String) (hm : mode = "r" ∨ mode = "a") :
    ImageStack.init (some { img_stack := some arr, metadata := none }) fn none cls mode =
      .ok { filename := fn, mode := mode, data := arr, metadata := none } ∧
    ImageStack.has_metadata
      { filename := fn, mode := mode, data := arr, metadata := none } = false := by
  rcases hm with h | h <;> subst h <;> exact ⟨rfl, rfl⟩

/-- C8 witness: reopening a container holding only the image array
succeeds read-only and `has_metadata()` is false. -/
theorem c8_missing_metadata_witness :
    ImageStack.init (some { img_stack := some stackWN.data, metadata := none })
        "t.h5" none none "r" =
      .ok { filename := "t.h5", mode := "r", data := stackWN.data, metadata := none } ∧
    ImageStack.has_metadata
      { filename := "t.h5", mode := "r", data := stackWN.data, metadata := none } = false :=
  c8_missing_metadata "t.h5" stackWN.data none "r" (Or.inl rfl)

/-- C9: `shape` returns the live shape tuple `(N, *item_shape)` of the
image array, and every successful `add_image` call increments N by exactly
1 while leaving `item_shape` unchanged. -/
theorem c9_shape_live (s s' : ImageStack) (img : Img) (md : Option Metadata)
    (h : s.add_image img md = (s', none)) :
    ImageStack.shape s = s.data.items.length :: s.data.itemShape ∧
    ImageStack.shape s' = (s.data.items.length + 1) :: s.data.itemShape := by
  obtain ⟨-, -, hitems, hshape, -, -, -, -⟩ := add_image_ok_inv s s' img md h
  refine ⟨rfl, ?_⟩
  simp [ImageStack.shape, EArray.shape, hitems, hshape]

/-- C9 witness: appending `imgA` to the fresh 2x2 stack moves the shape
from (0, 2, 2) to (1, 2, 2). -/
theorem c9_shape_live_witness :
    ImageStack.shape stackNoMeta = 0 :: [2, 2] ∧
    ImageStack.shape
      { filename := "t.h5", mode := "w",
        data := { itemShape := [2, 2], dtype := Dtype.uint8, items := [imgA] },
        metadata := none } = (0 + 1) :: [2, 2] :=
  c9_shape_live stackNoMeta
    { filename := "t.h5", mode := "w",
      data := { itemShape := [2, 2], dtype := Dtype.uint8, items := [imgA] },
      metadata := none } imgA none (by decide)

/-- C1: round-trip.  For any sequence of images appended via `add_image`
to a newly created stack (with or without a metadata schema), closing the
stack and reopening the same file read-only yields a stack whose shape is
`(N, *item_shape)`, whose `has_metadata()` matches whether a schema was
supplied at creation, and whose indexed access at each i returns data
equal to the i-th appended image. -/
theorem c1_roundtrip (fs : Option Container) (fn : String) (d : Img)
    (cls : Option (List String)) (mode : String)
    (l : List (Img × Option Metadata)) (s0 sN s' : ImageStack)
    (i : Nat) (img_i : Img) (md_i : Option Metadata)
    (h0 : ImageStack.init fs fn (some d) cls mode = .ok s0)
    (hN : addImages s0 l = .ok sN)
    (h' : ImageStack.init (some (closeStack sN)) fn none none "r" = .ok s')
    (hi : l[i]? = some (img_i, md_i)) :
    ImageStack.shape s' = l.length :: d.shape ∧
    s'.has_metadata = cls.isSome ∧
    s'.getitem i = some img_i := by
  rw [init_create_eq] at h0
  injection h0 with h0
  subst h0
  obtain ⟨hitems, hshape, hdtype, hmeta, -, -⟩ := addImages_ok_inv l _ sN hN
  have h'' :
      (Except.ok { filename := fn, mode := "r", data := sN.data, metadata := sN.metadata }
        : Except PyErr ImageStack) = .ok s' := h'
  injection h'' with h''
  subst h''
  simp only [List.nil_append] at hitems
  refine ⟨?_, ?_, ?_⟩
  · simp [ImageStack.shape, EArray.shape, hitems, hshape]
  · cases cls with
    | none => simpa [ImageStack.has_metadata] using hmeta
    | some c => simpa [ImageStack.has_metadata] using hmeta
  · simp only [ImageStack.getitem, hitems]
    rw [List.getElem?_map, hi]
    rfl

/-- C1 witness: the concrete two-image no-metadata roundtrip, checked at
index 1. -/
theorem c1_roundtrip_witness :
    ImageStack.shape stackR = [2, 2, 2] ∧ stackR.has_metadata = false ∧
    stackR.getitem 1 = some imgB :=
  c1_roundtrip none "t.h5" dummyT none "r" [(imgA, none), (imgB, none)]
    stackNoMeta stackWN stackR 1 imgB none (by decide) (by decide) (by decide) (by decide)

/-- C3: metadata alignment.  If a metadata schema is supplied at creation
and every `add_image` call supplies metadata matching the schema, then
after any number of appends the metadata table's length equals `shape[0]`,
and the record stored at index i agrees, on every schema field, with the
metadata supplied in the same `add_image` call as the image at index i. -/
theorem c3_metadata_alignment (fs : Option Container) (fn : String) (d : Img)
    (cls : List String) (mode : String) (l : List (Img × Metadata))
    (s0 sN : ImageStack) (t : MTable) (i : Nat)
    (row_i : Metadata) (img_i : Img) (md_i : Metadata) (k : String)
    (h0 : ImageStack.init fs fn (some d) (some cls) mode = .ok s0)
    (hmatch : ∀ p ∈ l, matchesSchema cls p.2)
    (hN : addImagesM s0 l = .ok sN)
    (ht : sN.metadata = some t)
    (hrow : t.rows[i]? = some row_i)
    (hl : l[i]? = some (img_i, md_i))
    (hk : k ∈ cls) :
    t.rows.length = (ImageStack.shape sN).headD 0 ∧
    lookupRow row_i k = lookupRow md_i k := by
  rw [init_create_eq] at h0
  injection h0 with h0
  subst h0
  obtain ⟨rs, hsN, hlen, hitems, hcorr⟩ :=
    addImagesM_table_inv l _ sN { colnames := cls, rows := [] } rfl hmatch hN
  rw [ht] at hsN
  injection hsN with hsN
  subst hsN
  simp only [List.nil_append] at hrow hitems ⊢
  constructor
  · simp [ImageStack.shape, EArray.shape, hitems, hlen]
  · exact hcorr i row_i img_i md_i hrow hl k hk

/-- C3 witness: one append with schema `{exp_time}` and metadata
`{exp_time: 7}`; the stored record at index 0 yields 7 and the table has
length `shape[0] = 1`. -/
theorem c3_metadata_alignment_witness :
    (MTable.rows { colnames := ["exp_time"], rows := [[("exp_time", 7)]] }).length =
      (ImageStack.shape stackMeta1).headD 0 ∧
    lookupRow [("exp_time", 7)] "exp_time" = lookupRow [("exp_time", 7)] "exp_time" :=
  c3_metadata_alignment none "t.h5" dummyT ["exp_time"] "r" [(imgA, [("exp_time", 7)])]
    stackMeta0 stackMeta1 { colnames := ["exp_time"], rows := [[("exp_time", 7)]] }
    0 [("exp_time", 7)] imgA [("exp_time", 7)] "exp_time"
    (by decide)
    (by
      intro p hp
      simp only [List.mem_singleton] at hp
      subst hp
      refine ⟨by decide, ?_, ?_⟩ <;> · intro x hx; simpa using hx)
    (by decide) (by decide) (by decide) (by decide) (by decide)

/-- C2 counterexample: the claim says a non-None metadata mapping passed
to a stack with no metadata table is silently discarded with no error. In
fact `_get_metadata_row` returns `None` and `row[key] = value` then raises
`TypeError`: at the concrete no-metadata stack and metadata
`{exp_time: 3}`, the call raises. -/
theorem c2_counterexample :
    ImageStack.has_metadata stackNoMeta = false ∧
    (stackNoMeta.add_image imgA (some [("exp_time", 3)])).2 = some PyErr.typeError ∧
    (stackNoMeta.add_image imgA (some [("exp_time", 3)])).2 ≠ none := by
  decide

/-- C2 (amended): for every stack with no metadata table, `add_image`
with a non-None metadata mapping (and a well-shaped image) does raise —
`TypeError` from assigning into the `None` row, or `AttributeError` from
`None.append()` when the mapping is empty; the metadata is discarded (no
table is created), while the image append has already happened. -/
theorem c2_metadata_not_silently_discarded (s : ImageStack) (img : Img) (md : Metadata)
    (hmeta : s.metadata = none)
    (hsh : img.shape = s.data.itemShape) (hdt : img.dtype = s.data.dtype) :
    s.add_image img (some md) =
      ({ s with data := { s.data with items := s.data.items ++ [img] } },
        some (if md.isEmpty then PyErr.attributeError else PyErr.typeError)) :=
  add_image_no_table s img md hmeta hsh hdt

/-- C2 amended witness: the concrete no-metadata stack raises `TypeError`
on an append that supplies `{exp_time: 3}`. -/
theorem c2_metadata_not_silently_discarded_witness :
    stackNoMeta.add_image imgA (some [("exp_time", 3)]) =
      ({ stackNoMeta with
          data := { stackNoMeta.data with items := stackNoMeta.data.items ++ [imgA] } },
        some (if ([("exp_time", 3)] : Metadata).isEmpty
          then PyErr.attributeError else PyErr.typeError)) :=
  c2_metadata_not_silently_discarded stackNoMeta imgA [("exp_time", 3)]
    (by decide) (by decide) (by decide)

/-- C4 counterexample: on the construction error path that opens an
existing file lacking the `img_stack` array, the handle is acquired but
never released — `__init__` raises `NoSuchNodeError` and the destructor
dies on `AttributeError` (reading the never-assigned `self.metadata`)
before reaching `self._h5file.close()`.  So "released exactly once on
every exit path" fails at this concrete input. -/
theorem c4_leak_counterexample :
    ImageStack.init (some { img_stack := none, metadata := none }) "t.h5" none none "r" =
      .error PyErr.noSuchNode ∧
    initLifecycle (some { img_stack := none, metadata := none }) none none "r" =
      { acquired := 1, released := 0, ok := false } := by
  decide

/-- C4 (amended): the handle is acquired at most once; a successful
construction acquires it exactly once and normal teardown releases it
exactly once; a construction failure before the open acquires nothing;
but a construction failure after the open (missing `img_stack`) leaves
the handle acquired and never released. -/
theorem c4_lifecycle (fs : Option Container) (dummy_img : Option Img)
    (cls : Option (List String)) (mode : String) :
    initLifecycle fs dummy_img cls mode = { acquired := 0, released := 0, ok := false } ∨
    initLifecycle fs dummy_img cls mode = { acquired := 1, released := 1, ok := true } ∨
    initLifecycle fs dummy_img cls mode = { acquired := 1, released := 0, ok := false } := by
  cases dummy_img with
  | some d => exact Or.inr (Or.inl rfl)
  | none =>
    have heq : initLifecycle fs none cls mode =
        match openFile fs mode with
        | .error _ => { acquired := 0, released := 0, ok := false }
        | .ok c =>
          match c.img_stack with
          | none => { acquired := 1, released := 0, ok := false }
          | some _ => { acquired := 1, released := 1, ok := true } := rfl
    rw [heq]
    cases openFile fs mode with
    | error e => exact Or.inl rfl
    | ok c =>
      obtain ⟨is, md⟩ := c
      cases is with
      | none => exact Or.inr (Or.inr rfl)
      | some a => exact Or.inr (Or.inl rfl)

/-- C10: on a stack created without a metadata schema, `add_image` with a
non-None metadata mapping appends the image first, then fails while
writing the metadata row, and the image append is not rolled back: the
stack ends one image longer than before the call. -/
theorem c10_no_rollback (fs : Option Container) (fn : String) (d : Img) (mode : String)
    (l : List (Img × Option Metadata)) (s0 s : ImageStack) (img : Img) (md : Metadata)
    (h0 : ImageStack.init fs fn (some d) none mode = .ok s0)
    (hl : addImages s0 l = .ok s)
    (hsh : img.shape = d.shape) (hdt : img.dtype = d.dtype) :
    (s.add_image img (some md)).1.data.items = s.data.items ++ [img] ∧
    (s.add_image img (some md)).2 ≠ none ∧
    (ImageStack.shape (s.add_image img (some md)).1).headD 0 =
      (ImageStack.shape s).headD 0 + 1 := by
  rw [init_create_eq] at h0
  injection h0 with h0
  subst h0
  obtain ⟨-, hshape, hdtype, hmeta, -, -⟩ := addImages_ok_inv l _ s hl
  have hnone : s.metadata = none := by
    cases hsm : s.metadata with
    | none => rfl
    | some t => rw [hsm] at hmeta; simp at hmeta
  have heq := add_image_no_table s img md hnone (by rw [hshape]; exact hsh)
    (by rw [hdtype]; exact hdt)
  rw [heq]
  refine ⟨rfl, by simp, ?_⟩
  simp [ImageStack.shape, EArray.shape]

/-- C10 witness: appending `imgA` with metadata `{exp_time: 3}` to the
fresh no-metadata stack raises, yet the stack has grown to one image. -/
theorem c10_no_rollback_witness :
    (stackNoMeta.add_image imgA (some [("exp_time", 3)])).1.data.items =
      stackNoMeta.data.items ++ [imgA] ∧
    (stackNoMeta.add_image imgA (some [("exp_time", 3)])).2 ≠ none ∧
    (ImageStack.shape (stackNoMeta.add_image imgA (some [("exp_time", 3)])).1).headD 0 =
      (ImageStack.shape stackNoMeta).headD 0 + 1 :=
  c10_no_rollback none "t.h5" dummyT "r" [] stackNoMeta stackNoMeta imgA
    [("exp_time", 3)] (by decide) (by decide) (by decide) (by decide)
